import Mathlib

/-!
Shallow embedding of a retrieval-augmented question-answering program.

The program has five modules: an ingestion pipeline (`ingest.py`) that
splits a PDF into chunks, filters chunk metadata and stores the chunks
under sequential ids; a retriever (`retriever.py`) that queries a vector
store and renders the results into a context string; a responder
(`responder.py`) that invokes a generation service; an orchestrator
(`search.py`) that composes them; and an interactive loop (`chat.py`).

External services (vector store, embedding service, generation service)
are modelled as function parameters; a call that may raise is modelled
with `Except`, and a Python function that can implicitly return `None`
is modelled with `Option`.

Python string helpers are modelled structurally over the character
list: `pyStrip` is `str.strip()` (drop whitespace at both ends) and
`pyLower` is `str.lower()` (modelled on ASCII letters).
-/

/-- Python `str.strip()`: the string with leading and trailing
whitespace removed. -/
def pyStrip (s : String) : String :=
  ⟨((s.data.dropWhile Char.isWhitespace).reverse.dropWhile
      Char.isWhitespace).reverse⟩

/-- Python `str.lower()`: every character lowercased. -/
def pyLower (s : String) : String :=
  ⟨s.data.map Char.toLower⟩

/-- A metadata value as it appears in the metadata mapping of a chunk:
a string, a number, or Python `None`. -/
inductive MetaVal where
  | str : String → MetaVal
  | num : Int → MetaVal
  | null : MetaVal
deriving DecidableEq

/-- A `langchain` document: page content plus a metadata mapping. -/
structure Document where
  page_content : String
  metadata : List (String × MetaVal)
deriving DecidableEq

/-- Result of one `answer_question` call: the returned value (`none`
models Python `None`) together with whether the retriever and the
responder were invoked during the call. -/
structure QAResult where
  answer : Option String
  retrieverCalled : Bool
  responderCalled : Bool
deriving DecidableEq

/-- Fixed message for an empty or whitespace-only question
(`search.py` line 35). -/
def invalidQuestionMsg : String := "Por favor, forneça uma pergunta válida."

/-- Fixed message for an empty retrieved context (`search.py` line 40). -/
def noContextMsg : String :=
  "Não encontrei informações suficientes para responder sua pergunta."

/-- Fixed message returned by `search_prompt` when the pipeline raises
(`search.py` line 88). -/
def pipelineErrorMsg : String := "Não foi possível processar a pergunta no momento."

/-- `QuestionAnsweringChain.answer_question` (`search.py` lines 23-42).
`retrieveContext` stands for `self.retriever.retrieve_context` and
`generateAnswer` for `self.responder.generate_answer` (whose Python
body can fall off the end and return `None`, hence `Option String`).
The guard `not question or not question.strip()` is
`question = "" ∨ pyStrip question = ""`, and `not context.strip()` is
`pyStrip context = ""`. -/
def answer_question (retrieveContext : String → String)
    (generateAnswer : String → String → Option String)
    (question : String) : QAResult :=
  if question = "" ∨ pyStrip question = "" then
    { answer := some invalidQuestionMsg, retrieverCalled := false,
      responderCalled := false }
  else
    let context := retrieveContext question
    if pyStrip context = "" then
      { answer := some noContextMsg, retrieverCalled := true,
        responderCalled := false }
    else
      { answer := generateAnswer context question, retrieverCalled := true,
        responderCalled := true }

/-- Message of the `ValueError` raised by `PostgresVectorRetriever.retrieve`
for an empty question (`retriever.py` line 57). -/
def invalidQuestionError : String := "A pergunta deve ser uma string não vazia."

/-- `PostgresVectorRetriever.retrieve` (`retriever.py` lines 44-64).
`search` stands for `self.store.similarity_search_with_score`; an
`Except.error` models a raised exception and similarity scores are kept
abstract as `Int`. An empty question raises a `ValueError`; any error
raised by the store during the search is caught (and logged) and the
empty list is returned instead. -/
def retrieve (search : String → Nat → Except String (List (Document × Int)))
    (question : String) (k : Nat) : Except String (List (Document × Int)) :=
  if question = "" then
    Except.error invalidQuestionError
  else
    match search question k with
    | Except.ok results => Except.ok results
    | Except.error _ => Except.ok []

/-- Rendering of retrieved documents into a context string
(`retriever.py` lines 81-86): entry `i` (0-based) of `enumerate` is
rendered as `"[Documento " ++ str (i+1) ++ "] " ++ stripped content`
and the entries are joined by blank lines. -/
def format_context (results : List (Document × Int)) : String :=
  String.intercalate "\n\n" (results.enum.map fun p =>
    "[Documento " ++ Nat.repr (p.1 + 1) ++ "] " ++ pyStrip p.2.1.page_content)

/-- `PostgresVectorRetriever.retrieve_context` (`retriever.py`
lines 66-86): retrieves, returns the empty string when nothing was
retrieved, and otherwise the rendered context. -/
def retrieve_context (search : String → Nat → Except String (List (Document × Int)))
    (question : String) (k : Nat) : Except String String :=
  match retrieve search question k with
  | Except.error e => Except.error e
  | Except.ok results =>
      if results = [] then Except.ok ""
      else Except.ok (format_context results)

/-- The context entries as the specification phrases them: a list whose
i-th entry carries the 1-based ordinal `i` in its label, rendered by
recursion with an ordinal accumulator. -/
def contextEntriesFrom : Nat → List (Document × Int) → List String
  | _, [] => []
  | i, (d, _) :: rest =>
      ("[Documento " ++ Nat.repr i ++ "] " ++ pyStrip d.page_content) ::
        contextEntriesFrom (i + 1) rest

/-- `ContextualLLMResponder.generate_answer` (`responder.py`
lines 42-48). `invoke` stands for `(self.prompt | self.llm).invoke`,
returning the response content; on success the stripped content is
returned, while on any raised exception the Python body logs and falls
off the end, implicitly returning `None` (`none`). -/
def generate_answer (invoke : String → String → Except String String)
    (context question : String) : Option String :=
  match invoke context question with
  | Except.ok content => some (pyStrip content)
  | Except.error _ => none

/-- Message of the `ValueError` raised by `build_rag_chain` when the
required configuration is unset (`search.py` lines 57-60). -/
def envVarErrorMsg : String :=
  "As variáveis de ambiente PG_VECTOR_COLLECTION_NAME e DATABASE_URL devem estar definidas."

/-- The configuration guard of `build_rag_chain` (`search.py`
lines 45-69): with the collection name or the connection URL unset
(Python `None`, modelled as `none`, or the empty string), a
`ValueError` is raised before any component is built; otherwise the
chain is returned. The built retriever and responder behaviours are
abstract (`chain`). -/
def build_rag_chain (collection connection : Option String)
    (chain : (String → String) × (String → String → Option String)) :
    Except String ((String → String) × (String → String → Option String)) :=
  if collection.getD "" = "" ∨ connection.getD "" = "" then
    Except.error envVarErrorMsg
  else Except.ok chain

/-- `search_prompt` (`search.py` lines 72-88): builds the RAG chain and
answers the question; any exception raised on the way is caught and the
fixed failure message returned. `build` stands for the evaluation of
`build_rag_chain()`: an error models a raised exception, a success
carries the retriever and responder behaviours of the chain (within which
all failure modes are already caught, so answering itself never
raises). The result is the Python return value (`none` for `None`). -/
def search_prompt
    (build : Except String ((String → String) × (String → String → Option String)))
    (question : String) : Option String :=
  match build with
  | Except.error _ => some pipelineErrorMsg
  | Except.ok chain => (answer_question chain.1 chain.2 question).answer

/-- Filtering of inherited chunk metadata (`ingest.py` lines 67-72):
an entry is kept only if its value is neither the empty string nor
Python `None`. -/
def filter_metadata (md : List (String × MetaVal)) : List (String × MetaVal) :=
  md.filter fun p => !(p.2 == MetaVal.str "") && !(p.2 == MetaVal.null)

/-- `load_and_split_pdf` (`ingest.py` lines 34-76): `docs` are the
pages produced by the external loader and `split` stands for the
external `RecursiveCharacterTextSplitter`; with no pages or no chunks
a `ValueError` is raised, otherwise every chunk is rebuilt with its
metadata filtered. -/
def load_and_split_pdf (split : List Document → List Document)
    (docs : List Document) : Except String (List Document) :=
  if docs = [] then
    Except.error "No pages found in PDF"
  else
    if split docs = [] then
      Except.error "No text chunks were created from the PDF."
    else
      Except.ok ((split docs).map fun d =>
        { page_content := d.page_content, metadata := filter_metadata d.metadata })

/-- The ids generated by `store_documents` (`ingest.py` line 109):
`"doc-" ++ str i` for `i` in `range(len(docs))`, in chunk order. -/
def store_documents_ids (docs : List Document) : List String :=
  (List.range docs.length).map fun i => "doc-" ++ Nat.repr i

/-- Farewell message printed when the loop terminates
(`chat.py` line 17). -/
def farewellMsg : String := "👋 Chat encerrado. Até mais!"

/-- The visible reaction of one iteration of the interactive loop:
either the session terminates printing a farewell, or a message is
forwarded to `search_prompt`. -/
inductive ChatAction where
  | terminate : String → ChatAction
  | forward : String → ChatAction
deriving DecidableEq

/-- One iteration of `main` (`chat.py` lines 14-21): the line read from
stdin is stripped and lowercased into `mensagem`; if `mensagem` is one
of the termination tokens the loop prints the farewell and stops,
otherwise `mensagem` (not the original line) is passed to
`search_prompt`. -/
def chat_step (line : String) : ChatAction :=
  let mensagem := pyLower (pyStrip line)
  if mensagem = "fechar" ∨ mensagem = "exit" ∨ mensagem = "close" then
    ChatAction.terminate farewellMsg
  else
    ChatAction.forward mensagem

/-- Numeric value of a decimal digit character. -/
def digitVal (c : Char) : Nat := c.toNat - 48

/-- Numeric value of a list of decimal digit characters, most
significant first. -/
def digitsVal (l : List Char) : Nat :=
  l.foldl (fun a c => a * 10 + digitVal c) 0

theorem enumFrom_map_context (rs : List (Document × Int)) :
    ∀ n : Nat,
      (List.enumFrom n rs).map (fun p =>
          "[Documento " ++ Nat.repr (p.1 + 1) ++ "] " ++
            pyStrip p.2.1.page_content) =
        contextEntriesFrom (n + 1) rs := by
  induction rs with
  | nil => intro n; rfl
  | cons hd tl ih =>
    obtain ⟨d, score⟩ := hd
    intro n
    simp only [List.enumFrom, List.map, contextEntriesFrom]
    rw [ih (n + 1)]

theorem format_context_eq_entries (rs : List (Document × Int)) :
    format_context rs = String.intercalate "\n\n" (contextEntriesFrom 1 rs) := by
  unfold format_context List.enum
  rw [enumFrom_map_context rs 0]

theorem toDigitsCore_append (b : Nat) :
    ∀ (f n : Nat) (ds : List Char),
      Nat.toDigitsCore b f n ds = Nat.toDigitsCore b f n [] ++ ds
  | 0, _, _ => rfl
  | f + 1, n, ds => by
    simp only [Nat.toDigitsCore]
    by_cases h : n / b = 0
    · rw [if_pos h, if_pos h]
      rfl
    · rw [if_neg h, if_neg h,
        toDigitsCore_append b f (n / b) (Nat.digitChar (n % b) :: ds),
        toDigitsCore_append b f (n / b) [Nat.digitChar (n % b)],
        List.append_assoc]
      rfl

theorem digitVal_digitChar (d : Nat) (h : d < 10) :
    digitVal (Nat.digitChar d) = d := by
  interval_cases d <;> decide

theorem digitsVal_append (l : List Char) (c : Char) :
    digitsVal (l ++ [c]) = digitsVal l * 10 + digitVal c := by
  simp [digitsVal, List.foldl_append]

theorem digitsVal_toDigits :
    ∀ (f n : Nat), n < f → digitsVal (Nat.toDigitsCore 10 f n []) = n
  | 0, n, h => absurd h (Nat.not_lt_zero n)
  | f + 1, n, h => by
    simp only [Nat.toDigitsCore]
    by_cases h0 : n / 10 = 0
    · rw [if_pos h0]
      have hv : digitsVal [Nat.digitChar (n % 10)] =
          digitVal (Nat.digitChar (n % 10)) := by
        simp [digitsVal]
      rw [hv, digitVal_digitChar (n % 10) (by omega)]
      omega
    · rw [if_neg h0]
      rw [toDigitsCore_append 10 f (n / 10) [Nat.digitChar (n % 10)],
        digitsVal_append, digitsVal_toDigits f (n / 10) (by omega),
        digitVal_digitChar (n % 10) (by omega)]
      omega

theorem repr_nat_injective : Function.Injective Nat.repr := by
  intro m n h
  have hlist : Nat.toDigits 10 m = Nat.toDigits 10 n := congrArg String.data h
  have hm : digitsVal (Nat.toDigits 10 m) = m :=
    digitsVal_toDigits (m + 1) m (Nat.lt_succ_self m)
  have hn : digitsVal (Nat.toDigits 10 n) = n :=
    digitsVal_toDigits (n + 1) n (Nat.lt_succ_self n)
  calc m = digitsVal (Nat.toDigits 10 m) := hm.symm
    _ = digitsVal (Nat.toDigits 10 n) := by rw [hlist]
    _ = n := hn

theorem docId_injective :
    Function.Injective (fun i : Nat => "doc-" ++ Nat.repr i) := by
  intro m n h
  apply repr_nat_injective
  apply String.ext
  have hd : ("doc-".data ++ (Nat.repr m).data) =
      ("doc-".data ++ (Nat.repr n).data) := congrArg String.data h
  exact List.append_cancel_left hd

/-- C2: for every question that is empty or whitespace-only,
`answer_question` returns exactly the fixed message
"Por favor, forneça uma pergunta válida." and no retrieval call is made. -/
theorem answer_question_blank_question (retrieveContext : String → String)
    (generateAnswer : String → String → Option String) (q : String)
    (hq : pyStrip q = "") :
    answer_question retrieveContext generateAnswer q =
      { answer := some invalidQuestionMsg, retrieverCalled := false,
        responderCalled := false } := by
  unfold answer_question
  rw [if_pos (Or.inr hq)]

/-- Witness for C2 at the concrete whitespace-only question `"   "`. -/
theorem answer_question_blank_question_witness :
    pyStrip "   " = "" ∧
      answer_question (fun _ => "ctx") (fun _ _ => some "resposta") "   " =
        { answer := some invalidQuestionMsg, retrieverCalled := false,
          responderCalled := false } :=
  ⟨by decide, answer_question_blank_question _ _ _ (by decide)⟩

/-- C1: for every question that is non-empty after trimming, if the
retriever yields an empty or whitespace-only context string then
`answer_question` returns exactly the fixed message
"Não encontrei informações suficientes para responder sua pergunta."
and the responder is never invoked. -/
theorem answer_question_empty_context (retrieveContext : String → String)
    (generateAnswer : String → String → Option String) (q : String)
    (hq : pyStrip q ≠ "") (hctx : pyStrip (retrieveContext q) = "") :
    answer_question retrieveContext generateAnswer q =
      { answer := some noContextMsg, retrieverCalled := true,
        responderCalled := false } := by
  have hq0 : q ≠ "" := by
    intro h
    exact hq (by rw [h]; rfl)
  unfold answer_question
  rw [if_neg (by simp [hq0, hq])]
  simp [hctx]

/-- Witness for C1 at the concrete question `"pergunta"` with a
retriever that yields the whitespace-only context `" "`. -/
theorem answer_question_empty_context_witness :
    pyStrip "pergunta" ≠ "" ∧ pyStrip ((fun _ => " ") "pergunta") = "" ∧
      answer_question (fun _ => " ") (fun _ _ => some "resposta") "pergunta" =
        { answer := some noContextMsg, retrieverCalled := true,
          responderCalled := false } :=
  ⟨by decide, by decide,
    answer_question_empty_context (fun _ => " ") (fun _ _ => some "resposta")
      "pergunta" (by decide) (by decide)⟩

/-- C3: for every non-empty question and every k, when the vector-store
similarity search raises, `retrieve` catches the error and returns the
empty result list; no exception propagates to the caller. -/
theorem retrieve_swallows_search_error
    (search : String → Nat → Except String (List (Document × Int)))
    (q : String) (k : Nat) (e : String)
    (hq : q ≠ "") (he : search q k = Except.error e) :
    retrieve search q k = Except.ok [] := by
  unfold retrieve
  rw [if_neg hq, he]

/-- Witness for C3 at a concrete failing store. -/
theorem retrieve_swallows_search_error_witness :
    retrieve (fun _ _ => Except.error "conexão recusada") "pergunta" 10 =
      Except.ok [] :=
  retrieve_swallows_search_error _ "pergunta" 10 "conexão recusada"
    (by decide) rfl

/-- C6 counterexample: with one retrieved document whose content is
`" x "`, the rendered context is `"[Documento 1] x"` — the label reads
`Documento`, not `Document`, and the content is stripped — so the entry
the claim literally states, `"[Document 1]  x "`, is not produced. -/
theorem retrieve_context_label_counterexample :
    retrieve_context
        (fun _ _ => Except.ok [({ page_content := " x ", metadata := [] }, 1)])
        "q" 10 =
      Except.ok "[Documento 1] x" ∧
      ("[Documento 1] x" : String) ≠ "[Document 1]  x " :=
  ⟨rfl, by decide⟩

/-- C6 (amended): for every question accepted by `retrieve`, if the
retrieval result is empty then `retrieve_context` returns the empty
string (not an error); otherwise it returns the entries
`"[Documento " ++ str i ++ "] " ++ stripped content of the i-th
result` (1-based ordinal `i`), joined by blank lines, in the retrieval
order. -/
theorem retrieve_context_rendering
    (search : String → Nat → Except String (List (Document × Int)))
    (q : String) (k : Nat) (rs : List (Document × Int))
    (h : retrieve search q k = Except.ok rs) :
    retrieve_context search q k =
      Except.ok (if rs = [] then ""
        else String.intercalate "\n\n" (contextEntriesFrom 1 rs)) := by
  unfold retrieve_context
  rw [h]
  show (if rs = [] then (Except.ok "" : Except String String)
      else Except.ok (format_context rs)) = _
  by_cases hrs : rs = []
  · rw [if_pos hrs, if_pos hrs]
  · rw [if_neg hrs, if_neg hrs, format_context_eq_entries]

/-- Witness for C6 (amended) at a concrete two-document retrieval. -/
theorem retrieve_context_rendering_witness :
    retrieve_context
        (fun _ _ => Except.ok
          [({ page_content := " Um fato. ", metadata := [] }, 2),
            ({ page_content := "Outro.", metadata := [] }, 1)])
        "oi" 10 =
      Except.ok "[Documento 1] Um fato.\n\n[Documento 2] Outro." := by
  rw [retrieve_context_rendering
      (fun _ _ => Except.ok
        [({ page_content := " Um fato. ", metadata := [] }, 2),
          ({ page_content := "Outro.", metadata := [] }, 1)])
      "oi" 10
      [({ page_content := " Um fato. ", metadata := [] }, 2),
        ({ page_content := "Outro.", metadata := [] }, 1)] rfl]
  rfl

/-- C5: for every context and question, when the generation service
raises, `generate_answer` returns `none` (the Python body logs and
implicitly returns `None`) rather than an answer string. -/
theorem generate_answer_failure_returns_none
    (invoke : String → String → Except String String)
    (context question e : String)
    (h : invoke context question = Except.error e) :
    generate_answer invoke context question = none := by
  unfold generate_answer
  rw [h]

/-- Witness for C5 at a concrete failing generation service. -/
theorem generate_answer_failure_returns_none_witness :
    generate_answer (fun _ _ => Except.error "falha do serviço") "ctx" "q" =
      none :=
  generate_answer_failure_returns_none _ "ctx" "q" "falha do serviço" rfl

/-- C4: at the failing input — a valid question, a retriever yielding a
non-empty context and a generation service that raises —
`search_prompt` returns `none` (Python `None`): the generation failure
is swallowed inside `generate_answer` and surfaces as an undefined,
non-string value instead of one of the fixed user-visible strings. -/
theorem search_prompt_generation_failure_none :
    search_prompt
        (Except.ok (fun _ => "CONTEXTO",
          generate_answer (fun _ _ => Except.error "service down")))
        "pergunta" = none :=
  rfl

/-- C10: for every question, if constructing the query pipeline raises
any exception — in particular when the collection-name or
database-connection configuration value is unset — `search_prompt`
catches it and returns exactly the fixed message
"Não foi possível processar a pergunta no momento.". -/
theorem search_prompt_catches_build_error (e question : String)
    (collection connection : Option String)
    (chain : (String → String) × (String → String → Option String)) :
    search_prompt (Except.error e) question = some pipelineErrorMsg ∧
      (collection.getD "" = "" ∨ connection.getD "" = "" →
        search_prompt (build_rag_chain collection connection chain) question =
          some pipelineErrorMsg) := by
  refine ⟨rfl, fun h => ?_⟩
  have hb : build_rag_chain collection connection chain =
      Except.error envVarErrorMsg := by
    unfold build_rag_chain
    rw [if_pos h]
  rw [hb]
  rfl

/-- Witness for C10 with a concrete raised error and an unset
collection name. -/
theorem search_prompt_catches_build_error_witness :
    search_prompt (Except.error "boom") "oi" = some pipelineErrorMsg ∧
      search_prompt
          (build_rag_chain none (some "postgresql://db")
            (id, fun _ _ => none)) "oi" =
        some pipelineErrorMsg :=
  ⟨(search_prompt_catches_build_error "boom" "oi" none (some "postgresql://db")
      (id, fun _ _ => none)).1,
    (search_prompt_catches_build_error "boom" "oi" none (some "postgresql://db")
      (id, fun _ _ => none)).2 (Or.inl rfl)⟩

/-- C7: for every ingestion run, the ids passed to the vector store are
exactly `"doc-0"` through `"doc-" ++ str (n-1)` for the n chunks
produced: as many ids as chunks, pairwise distinct, and the id at
position i is `"doc-" ++ str i`, in chunk order. -/
theorem store_documents_ids_sequential (docs : List Document) :
    (store_documents_ids docs).length = docs.length ∧
      (store_documents_ids docs).Nodup ∧
      ∀ i, i < docs.length →
        (store_documents_ids docs)[i]? = some ("doc-" ++ Nat.repr i) := by
  refine ⟨by simp [store_documents_ids], ?_, ?_⟩
  · exact (List.nodup_range docs.length).map docId_injective
  · intro i hi
    unfold store_documents_ids
    rw [List.getElem?_map, List.getElem?_range hi]
    rfl

/-- Witness for C7 on a concrete two-chunk ingestion run. -/
theorem store_documents_ids_sequential_witness :
    (store_documents_ids [{ page_content := "a", metadata := [] },
        { page_content := "b", metadata := [] }]).Nodup ∧
      (store_documents_ids [{ page_content := "a", metadata := [] },
          { page_content := "b", metadata := [] }])[1]? = some "doc-1" := by
  refine ⟨(store_documents_ids_sequential _).2.1, ?_⟩
  rw [(store_documents_ids_sequential
      [{ page_content := "a", metadata := [] },
        { page_content := "b", metadata := [] }]).2.2 1 (by decide)]
  rfl

/-- C8: every chunk produced by `load_and_split_pdf` has a metadata
mapping in which no entry has the empty string or `None` as value; such
entries of the inherited page metadata are dropped at creation. -/
theorem load_and_split_pdf_metadata_filtered
    (split : List Document → List Document) (docs enriched : List Document)
    (h : load_and_split_pdf split docs = Except.ok enriched) :
    ∀ d ∈ enriched, ∀ kv ∈ d.metadata,
      kv.2 ≠ MetaVal.str "" ∧ kv.2 ≠ MetaVal.null := by
  intro d hd kv hkv
  unfold load_and_split_pdf at h
  by_cases h1 : docs = []
  · rw [if_pos h1] at h
    exact absurd h (by simp)
  · rw [if_neg h1] at h
    by_cases h2 : split docs = []
    · rw [if_pos h2] at h
      exact absurd h (by simp)
    · rw [if_neg h2, Except.ok.injEq] at h
      subst h
      obtain ⟨d0, _, rfl⟩ := List.mem_map.mp hd
      have hf := (List.mem_filter.mp hkv).2
      simp only [Bool.and_eq_true, Bool.not_eq_true', beq_eq_false_iff_ne] at hf
      exact hf

/-- Witness for C8 on a concrete split whose inherited metadata holds
an empty-string and a `None` value besides a kept numeric one. -/
theorem load_and_split_pdf_metadata_filtered_witness :
    (("k", MetaVal.num 3).2 ≠ MetaVal.str "" ∧
      ("k", MetaVal.num 3).2 ≠ MetaVal.null) :=
  load_and_split_pdf_metadata_filtered
    (fun _ =>
      [⟨"chunk", [("k", MetaVal.num 3), ("e", MetaVal.str ""), ("n", MetaVal.null)]⟩])
    [⟨"page", []⟩]
    [⟨"chunk", [("k", MetaVal.num 3)]⟩]
    rfl
    ⟨"chunk", [("k", MetaVal.num 3)]⟩
    (by decide) ("k", MetaVal.num 3) (by decide)

/-- C9 counterexample: the input line `"HELLO"` is forwarded as
`"hello"` — stripped and lowercased — not verbatim as the claim
states. -/
theorem chat_step_not_verbatim :
    chat_step "HELLO" = ChatAction.forward "hello" ∧
      ChatAction.forward "hello" ≠ ChatAction.forward "HELLO" :=
  ⟨by decide, by decide⟩

/-- C9 (amended): every input line whose trimmed, case-insensitive form
is `"fechar"`, `"exit"` or `"close"` terminates the session with the
farewell message; every other input line is forwarded to the
orchestrator after trimming and lowercasing (not verbatim). -/
theorem chat_step_spec (line : String) :
    (pyLower (pyStrip line) = "fechar" ∨ pyLower (pyStrip line) = "exit" ∨
        pyLower (pyStrip line) = "close" →
      chat_step line = ChatAction.terminate farewellMsg) ∧
      (pyLower (pyStrip line) ≠ "fechar" → pyLower (pyStrip line) ≠ "exit" →
        pyLower (pyStrip line) ≠ "close" →
        chat_step line = ChatAction.forward (pyLower (pyStrip line))) := by
  constructor
  · intro h
    unfold chat_step
    rw [if_pos h]
  · intro h1 h2 h3
    unfold chat_step
    rw [if_neg (by simp [h1, h2, h3])]

/-- Witness for C9 (amended): `" FeChAr "` terminates the session and
`"Oi, TUDO bem"` is forwarded as `"oi, tudo bem"`. -/
theorem chat_step_spec_witness :
    chat_step " FeChAr " = ChatAction.terminate farewellMsg ∧
      chat_step "Oi, TUDO bem" = ChatAction.forward "oi, tudo bem" :=
  ⟨(chat_step_spec " FeChAr ").1 (by decide),
    ((chat_step_spec "Oi, TUDO bem").2 (by decide) (by decide)
      (by decide)).trans (by decide)⟩
